import Mathlib

set_option autoImplicit false

/-!
Shallow embedding of `Source/charon/config/configuration_manager.c`
(strongswan charon daemon, 2005): the policy and credential registry.

Linked lists become Lean lists; the hand-rolled iterator loops with
`break` become structural recursion; `status_t` results become `Option`
(`none` models `NOT_FOUND` / `FAILED`).  C pointer identity of
`init_config_t` / `sa_config_t` objects is modelled by an `oid` field,
so equality of the model values is exactly pointer equality.  The
collaborator types `host_t` and `identification_t` are not part of this
repository; they are modelled from the specification (structural
equality on identities, ip equality and a default-route marker on
hosts).
-/

namespace ConfigurationManager

/-- Modelled from the spec: an Identity is a typed peer name
`{ kind, value }` whose equality is structural (kind + value);
`identification.c` is not part of this repository. -/
structure Identification where
  kind : Nat
  value : String
  deriving DecidableEq, Repr

/-- The `equals` method of `identification_t`: structural equality. -/
def Identification.equals (a b : Identification) : Bool :=
  a == b

/-- Modelled from the spec: a Host is a network endpoint
`{ address, port, is_default_route }`; `host.c` is not part of this
repository.  The `default_route` field is the "matches any local
address" marker. -/
structure Host where
  address : String
  port : Nat
  default_route : Bool
  deriving DecidableEq, Repr

/-- The `ip_is_equal` method of `host_t`: equality of the ip addresses
(ports are not compared). -/
def Host.ip_is_equal (a b : Host) : Bool :=
  a.address == b.address

/-- The `is_default_route` method of `host_t`. -/
def Host.is_default_route (h : Host) : Bool :=
  h.default_route

/-- `init_config_t` as used by this file: the object identity (the C
pointer, modelled by `oid`) plus the hosts returned by `get_my_host` /
`get_other_host`. -/
structure InitConfig where
  oid : Nat
  my_host : Host
  other_host : Host
  deriving DecidableEq, Repr

/-- `sa_config_t` as used by this file: the object identity (the C
pointer, modelled by `oid`) plus the identities returned by `get_my_id`
/ `get_other_id`. -/
structure SaConfig where
  oid : Nat
  my_id : Identification
  other_id : Identification
  deriving DecidableEq, Repr

/-- `configuration_entry_t`: a configuration name together with
non-owning references to an init_config and an sa_config. -/
structure ConfigurationEntry where
  name : String
  init_config : InitConfig
  sa_config : SaConfig
  deriving DecidableEq, Repr

/-- `preshared_secret_entry_t`: an identification plus the preshared
secret chunk (a byte list). -/
structure PresharedSecretEntry where
  identification : Identification
  preshared_secret : List Nat
  deriving DecidableEq, Repr

/-- `rsa_public_key_entry_t`: an identification plus the public key
material. -/
structure RsaPublicKeyEntry where
  identification : Identification
  public_key : List Nat
  deriving DecidableEq, Repr

/-- `rsa_private_key_entry_t`: an identification plus the private key
material. -/
structure RsaPrivateKeyEntry where
  identification : Identification
  private_key : List Nat
  deriving DecidableEq, Repr

/-- `private_configuration_manager_t`: the collections and the timing
fields (all three timing fields are `u_int32_t`). -/
structure ManagerState where
  configurations : List ConfigurationEntry
  init_configs : List InitConfig
  sa_configs : List SaConfig
  preshared_secrets : List PresharedSecretEntry
  rsa_private_keys : List RsaPrivateKeyEntry
  rsa_public_keys : List RsaPublicKeyEntry
  max_retransmit_count : Nat
  first_retransmit_timeout : Nat
  half_open_ike_sa_timeout : Nat
  deriving DecidableEq, Repr

/-- The iterator loop of `get_init_config_for_host`, one recursive call
per configuration entry.  The nested conditionals mirror the source:
exact-remote branch first, wildcard-remote branch only as `else if`,
`break` on success, fall through to the next entry otherwise. -/
def get_init_config_for_host_loop (my_host other_host : Host) :
    List ConfigurationEntry → Option InitConfig
  | [] => none
  | entry :: rest =>
    let config_my_host := entry.init_config.my_host
    let config_other_host := entry.init_config.other_host
    if config_other_host.ip_is_equal other_host then
      if config_my_host.is_default_route then
        some entry.init_config
      else if config_my_host.ip_is_equal my_host then
        some entry.init_config
      else
        get_init_config_for_host_loop my_host other_host rest
    else if config_other_host.is_default_route then
      if config_my_host.is_default_route then
        some entry.init_config
      else if config_my_host.ip_is_equal my_host then
        some entry.init_config
      else
        get_init_config_for_host_loop my_host other_host rest
    else
      get_init_config_for_host_loop my_host other_host rest

/-- `configuration_manager_t.get_init_config_for_host`: scan the
configuration entries in list order, `none` models `NOT_FOUND`. -/
def get_init_config_for_host (this : ManagerState) (my_host other_host : Host) :
    Option InitConfig :=
  get_init_config_for_host_loop my_host other_host this.configurations

/-- The per-entry match condition as the specification words it: the
entry matches iff (a) its configured remote host ip-equals the observed
remote host and its configured local host is default-route or ip-equals
the observed local host, or (b) its configured remote host is
default-route and its configured local host is default-route or
ip-equals the observed local host. -/
def spec_entry_matches (entry : ConfigurationEntry) (my_host other_host : Host) : Bool :=
  (entry.init_config.other_host.ip_is_equal other_host &&
    (entry.init_config.my_host.is_default_route ||
      entry.init_config.my_host.ip_is_equal my_host)) ||
  (entry.init_config.other_host.is_default_route &&
    (entry.init_config.my_host.is_default_route ||
      entry.init_config.my_host.ip_is_equal my_host))

theorem get_init_config_for_host_loop_eq_find (my_host other_host : Host)
    (l : List ConfigurationEntry) :
    get_init_config_for_host_loop my_host other_host l =
      (l.find? (fun e => spec_entry_matches e my_host other_host)).map
        (fun e => e.init_config) := by
  induction l with
  | nil => rfl
  | cons e rest ih =>
    rw [get_init_config_for_host_loop, List.find?]
    cases hR : e.init_config.other_host.ip_is_equal other_host <;>
      cases hW : e.init_config.other_host.is_default_route <;>
      cases hD : e.init_config.my_host.is_default_route <;>
      cases hL : e.init_config.my_host.ip_is_equal my_host <;>
      simp [spec_entry_matches, hR, hW, hD, hL, ih]

/-- Host used in the worked example: address 1.2.3.0, not marked
default-route. -/
def host_1230 : Host :=
  { address := "1.2.3.0", port := 500, default_route := false }

/-- Host used in the worked example: the default-route wildcard. -/
def host_any : Host :=
  { address := "0.0.0.0", port := 500, default_route := true }

/-- Host used in the worked example: the observed local host
9.9.9.9. -/
def host_9999 : Host :=
  { address := "9.9.9.9", port := 500, default_route := false }

/-- Worked example, first entry: remote 1.2.3.0 exact, local
default-route. -/
def example_ic_exact : InitConfig :=
  { oid := 1, my_host := host_any, other_host := host_1230 }

/-- Worked example, second entry: remote default-route, local
default-route. -/
def example_ic_wild : InitConfig :=
  { oid := 2, my_host := host_any, other_host := host_any }

/-- An sa_config placeholder for the worked example entries. -/
def example_sc : SaConfig :=
  { oid := 1
    my_id := { kind := 1, value := "127.0.0.1" }
    other_id := { kind := 1, value := "1.2.3.0" } }

/-- A manager state whose entry list is the worked example
`[(remote=1.2.3.0 exact, local=default), (remote=default, local=default)]`. -/
def example_host_state : ManagerState :=
  { configurations :=
      [ { name := "exact", init_config := example_ic_exact, sa_config := example_sc }
      , { name := "wild", init_config := example_ic_wild, sa_config := example_sc } ]
    init_configs := [example_ic_wild, example_ic_exact]
    sa_configs := [example_sc]
    preshared_secrets := []
    rsa_private_keys := []
    rsa_public_keys := []
    max_retransmit_count := 3
    first_retransmit_timeout := 2
    half_open_ike_sa_timeout := 15000 }

/-- Claim C1: `get_init_config_for_host` scans the configuration entries
in registration order and returns the init_config of the first entry
matching the specification's per-entry condition (`spec_entry_matches`);
`none` (NOT_FOUND) when no entry matches.  In particular, for the entry
list [(remote=1.2.3.0 exact, local=default-route), (remote=default,
local=default)] and the query (local=9.9.9.9, remote=1.2.3.0), the first
entry's init_config is returned. -/
theorem get_init_config_for_host_spec :
    (∀ (st : ManagerState) (my_host other_host : Host),
      get_init_config_for_host st my_host other_host =
        (st.configurations.find? (fun e => spec_entry_matches e my_host other_host)).map
          (fun e => e.init_config)) ∧
    get_init_config_for_host example_host_state host_9999 host_1230 =
      some example_ic_exact := by
  constructor
  · intro st my_host other_host
    exact get_init_config_for_host_loop_eq_find my_host other_host st.configurations
  · decide

/-- The iterator loop of `get_init_config_for_name`: `strcmp == 0`
becomes string equality, `break` on the first hit. -/
def get_init_config_for_name_loop (name : String) :
    List ConfigurationEntry → Option InitConfig
  | [] => none
  | entry :: rest =>
    if entry.name == name then
      some entry.init_config
    else
      get_init_config_for_name_loop name rest

/-- `configuration_manager_t.get_init_config_for_name`. -/
def get_init_config_for_name (this : ManagerState) (name : String) :
    Option InitConfig :=
  get_init_config_for_name_loop name this.configurations

/-- The iterator loop of `get_sa_config_for_name`. -/
def get_sa_config_for_name_loop (name : String) :
    List ConfigurationEntry → Option SaConfig
  | [] => none
  | entry :: rest =>
    if entry.name == name then
      some entry.sa_config
    else
      get_sa_config_for_name_loop name rest

/-- `configuration_manager_t.get_sa_config_for_name`. -/
def get_sa_config_for_name (this : ManagerState) (name : String) :
    Option SaConfig :=
  get_sa_config_for_name_loop name this.configurations

theorem get_init_config_for_name_loop_eq_find (name : String)
    (l : List ConfigurationEntry) :
    get_init_config_for_name_loop name l =
      (l.find? (fun e => e.name == name)).map (fun e => e.init_config) := by
  induction l with
  | nil => rfl
  | cons e rest ih =>
    rw [get_init_config_for_name_loop, List.find?]
    cases h : (e.name == name) <;> simp [h, ih]

theorem get_sa_config_for_name_loop_eq_find (name : String)
    (l : List ConfigurationEntry) :
    get_sa_config_for_name_loop name l =
      (l.find? (fun e => e.name == name)).map (fun e => e.sa_config) := by
  induction l with
  | nil => rfl
  | cons e rest ih =>
    rw [get_sa_config_for_name_loop, List.find?]
    cases h : (e.name == name) <;> simp [h, ih]

/-- Claim C7: name-based resolution returns the init_config
respectively sa_config of the first entry in registration order whose
name is an exact string match of the queried name, and `none`
(NOT_FOUND) when no entry's name matches exactly. -/
theorem name_resolution_spec :
    (∀ (st : ManagerState) (name : String),
      get_init_config_for_name st name =
        (st.configurations.find? (fun e => e.name == name)).map
          (fun e => e.init_config)) ∧
    (∀ (st : ManagerState) (name : String),
      get_sa_config_for_name st name =
        (st.configurations.find? (fun e => e.name == name)).map
          (fun e => e.sa_config)) ∧
    (∀ (st : ManagerState) (name : String),
      (∀ e ∈ st.configurations, e.name ≠ name) →
      get_init_config_for_name st name = none ∧
        get_sa_config_for_name st name = none) := by
  refine ⟨?_, ?_, ?_⟩
  · intro st name
    exact get_init_config_for_name_loop_eq_find name st.configurations
  · intro st name
    exact get_sa_config_for_name_loop_eq_find name st.configurations
  · intro st name h
    have hfind : st.configurations.find? (fun e => e.name == name) = none := by
      rw [List.find?_eq_none]
      intro e he
      simpa using h e he
    constructor
    · rw [get_init_config_for_name, get_init_config_for_name_loop_eq_find, hfind]
      rfl
    · rw [get_sa_config_for_name, get_sa_config_for_name_loop_eq_find, hfind]
      rfl

/-- Claim C7 witness: on the worked-example state, "exact" resolves to
the first entry's policies and an unknown name resolves to `none`. -/
theorem name_resolution_spec_witness :
    (∀ e ∈ example_host_state.configurations, e.name ≠ "nosuch") ∧
    get_init_config_for_name example_host_state "nosuch" = none ∧
      get_sa_config_for_name example_host_state "nosuch" = none :=
  ⟨by decide, name_resolution_spec.2.2 example_host_state "nosuch" (by decide)⟩

/-- The iterator loop of `get_sa_config_for_init_config_and_id`: the
outer test is C pointer equality on the init_config reference, the
identity tests use `identification_t.equals`; `my_id == NULL` is
modelled by `none`. -/
def get_sa_config_for_init_config_and_id_loop (init_config : InitConfig)
    (other_id : Identification) (my_id : Option Identification) :
    List ConfigurationEntry → Option SaConfig
  | [] => none
  | entry :: rest =>
    if entry.init_config == init_config then
      let config_my_id := entry.sa_config.my_id
      let config_other_id := entry.sa_config.other_id
      if config_other_id.equals other_id then
        match my_id with
        | none => some entry.sa_config
        | some supplied_my_id =>
          if config_my_id.equals supplied_my_id then
            some entry.sa_config
          else
            get_sa_config_for_init_config_and_id_loop init_config other_id my_id rest
      else
        get_sa_config_for_init_config_and_id_loop init_config other_id my_id rest
    else
      get_sa_config_for_init_config_and_id_loop init_config other_id my_id rest

/-- `configuration_manager_t.get_sa_config_for_init_config_and_id`. -/
def get_sa_config_for_init_config_and_id (this : ManagerState)
    (init_config : InitConfig) (other_id : Identification)
    (my_id : Option Identification) : Option SaConfig :=
  get_sa_config_for_init_config_and_id_loop init_config other_id my_id
    this.configurations

theorem get_sa_config_loop_none_eq_find (init_config : InitConfig)
    (other_id : Identification) (l : List ConfigurationEntry) :
    get_sa_config_for_init_config_and_id_loop init_config other_id none l =
      (l.find? (fun e =>
          e.init_config == init_config && e.sa_config.other_id.equals other_id)).map
        (fun e => e.sa_config) := by
  induction l with
  | nil => rfl
  | cons e rest ih =>
    rw [get_sa_config_for_init_config_and_id_loop, List.find?]
    cases hP : (e.init_config == init_config) <;>
      cases hO : e.sa_config.other_id.equals other_id <;>
      simp [hP, hO, ih]

/-- An sa_config whose remote identity matches the example query but
whose local identity does not. -/
def example_sc_remote_only : SaConfig :=
  { oid := 11
    my_id := { kind := 2, value := "alice" }
    other_id := { kind := 1, value := "1.2.3.0" } }

/-- An sa_config matching the example query on both identities. -/
def example_sc_full : SaConfig :=
  { oid := 12
    my_id := { kind := 2, value := "bob" }
    other_id := { kind := 1, value := "1.2.3.0" } }

/-- A manager state with two entries on the same init_config: the first
matches the example query only on the remote identity, the second on
both identities. -/
def example_sa_state : ManagerState :=
  { configurations :=
      [ { name := "remote-only", init_config := example_ic_exact
          sa_config := example_sc_remote_only }
      , { name := "full", init_config := example_ic_exact
          sa_config := example_sc_full } ]
    init_configs := [example_ic_exact]
    sa_configs := [example_sc_full, example_sc_remote_only]
    preshared_secrets := []
    rsa_private_keys := []
    rsa_public_keys := []
    max_retransmit_count := 3
    first_retransmit_timeout := 2
    half_open_ike_sa_timeout := 15000 }

/-- Claim C2: with an unspecified (NULL) local identity,
`get_sa_config_for_init_config_and_id` returns the sa_config of the
first entry in registration order whose init_config reference is
pointer-identical to the supplied one and whose remote identity
structurally equals the supplied remote identity; entries failing
either test are skipped, and the local identities are never consulted —
so the first remote-only match wins even when a later entry would also
match the unsupplied local identity exactly. -/
theorem get_sa_config_unspecified_local_spec :
    (∀ (st : ManagerState) (init_config : InitConfig) (other_id : Identification),
      get_sa_config_for_init_config_and_id st init_config other_id none =
        (st.configurations.find? (fun e =>
            e.init_config == init_config &&
              e.sa_config.other_id.equals other_id)).map
          (fun e => e.sa_config)) ∧
    get_sa_config_for_init_config_and_id example_sa_state example_ic_exact
        { kind := 1, value := "1.2.3.0" } none =
      some example_sc_remote_only := by
  constructor
  · intro st init_config other_id
    exact get_sa_config_loop_none_eq_find init_config other_id st.configurations
  · decide

theorem get_sa_config_loop_some_eq_none (init_config : InitConfig)
    (other_id my_id : Identification) (l : List ConfigurationEntry) :
    (∀ e ∈ l,
      ¬(e.init_config = init_config ∧ e.sa_config.other_id = other_id ∧
          e.sa_config.my_id = my_id)) →
    get_sa_config_for_init_config_and_id_loop init_config other_id
        (some my_id) l = none := by
  induction l with
  | nil => intro _; rfl
  | cons e rest ih =>
    intro h
    have he := h e (List.mem_cons_self e rest)
    have hrest : ∀ x ∈ rest,
        ¬(x.init_config = init_config ∧ x.sa_config.other_id = other_id ∧
            x.sa_config.my_id = my_id) :=
      fun x hx => h x (List.mem_cons_of_mem e hx)
    rw [get_sa_config_for_init_config_and_id_loop]
    by_cases hP : e.init_config = init_config
    · by_cases hO : e.sa_config.other_id = other_id
      · by_cases hM : e.sa_config.my_id = my_id
        · exact absurd ⟨hP, hO, hM⟩ he
        · simp [hP, hO, hM, Identification.equals, ih hrest]
      · simp [hP, hO, Identification.equals, ih hrest]
    · simp [hP, ih hrest]

/-- Claim C3: when a local identity is supplied, session-policy
resolution returns `none` (NOT_FOUND) whenever no entry matches the
supplied init_config pointer together with both identities — even if
some entry matches on the remote identity alone — and an entry whose
local identity mismatches the supplied one is skipped, scanning
continuing with the later entries. -/
theorem get_sa_config_specified_local_spec :
    (∀ (st : ManagerState) (init_config : InitConfig)
        (other_id my_id : Identification),
      (∀ e ∈ st.configurations,
        ¬(e.init_config = init_config ∧ e.sa_config.other_id = other_id ∧
            e.sa_config.my_id = my_id)) →
      get_sa_config_for_init_config_and_id st init_config other_id (some my_id) =
        none) ∧
    (∀ (e : ConfigurationEntry) (rest : List ConfigurationEntry)
        (init_config : InitConfig) (other_id my_id : Identification),
      e.sa_config.my_id ≠ my_id →
      get_sa_config_for_init_config_and_id_loop init_config other_id
          (some my_id) (e :: rest) =
        get_sa_config_for_init_config_and_id_loop init_config other_id
          (some my_id) rest) := by
  constructor
  · intro st init_config other_id my_id h
    exact get_sa_config_loop_some_eq_none init_config other_id my_id
      st.configurations h
  · intro e rest init_config other_id my_id hM
    rw [get_sa_config_for_init_config_and_id_loop]
    by_cases hP : e.init_config = init_config
    · by_cases hO : e.sa_config.other_id = other_id
      · simp [hP, hO, hM, Identification.equals]
      · simp [hP, hO, Identification.equals]
    · simp [hP]

/-- Claim C3 witness: on the two-entry example state, querying with a
local identity equal to no entry's local identity yields `none` even
though both entries match on the remote identity, and the first entry
is skipped by the loop. -/
theorem get_sa_config_specified_local_spec_witness :
    get_sa_config_for_init_config_and_id example_sa_state example_ic_exact
        { kind := 1, value := "1.2.3.0" } (some { kind := 2, value := "carol" }) =
      none ∧
    get_sa_config_for_init_config_and_id_loop example_ic_exact
        { kind := 1, value := "1.2.3.0" } (some { kind := 2, value := "carol" })
        example_sa_state.configurations =
      get_sa_config_for_init_config_and_id_loop example_ic_exact
        { kind := 1, value := "1.2.3.0" } (some { kind := 2, value := "carol" })
        (example_sa_state.configurations.drop 1) :=
  ⟨get_sa_config_specified_local_spec.1 example_sa_state example_ic_exact
      { kind := 1, value := "1.2.3.0" } { kind := 2, value := "carol" } (by decide),
    get_sa_config_specified_local_spec.2
      { name := "remote-only", init_config := example_ic_exact
        sa_config := example_sc_remote_only }
      (example_sa_state.configurations.drop 1) example_ic_exact
      { kind := 1, value := "1.2.3.0" } { kind := 2, value := "carol" } (by decide)⟩

/-- The found-flag iterator scan used twice inside
`add_new_configuration`: true iff some element of the list is
pointer-identical to the probe. -/
def list_contains_ptr {α : Type} [DecidableEq α] : List α → α → Bool
  | [], _ => false
  | x :: rest, probe => if probe = x then true else list_contains_ptr rest probe

theorem list_contains_ptr_iff {α : Type} [DecidableEq α] (l : List α) (x : α) :
    list_contains_ptr l x = true ↔ x ∈ l := by
  induction l with
  | nil => simp [list_contains_ptr]
  | cons y rest ih =>
    rw [list_contains_ptr]
    by_cases h : x = y <;> simp [h, ih]

/-- `private_configuration_manager_t.add_new_configuration`: scan the
owned init_configs for a pointer-identical object, `insert_first` only
when absent; same for sa_configs; then `insert_last` a fresh
configuration entry. -/
def add_new_configuration (this : ManagerState) (name : String)
    (init_config : InitConfig) (sa_config : SaConfig) : ManagerState :=
  let init_configs :=
    if list_contains_ptr this.init_configs init_config then
      this.init_configs
    else
      init_config :: this.init_configs
  let sa_configs :=
    if list_contains_ptr this.sa_configs sa_config then
      this.sa_configs
    else
      sa_config :: this.sa_configs
  { this with
    init_configs := init_configs
    sa_configs := sa_configs
    configurations :=
      this.configurations ++
        [{ name := name, init_config := init_config, sa_config := sa_config }] }

/-- A sequence of `add_new_configuration` calls, applied in order. -/
def register_all (st : ManagerState) :
    List (String × InitConfig × SaConfig) → ManagerState
  | [] => st
  | (name, init_config, sa_config) :: rest =>
    register_all (add_new_configuration st name init_config sa_config) rest

/-- The teardown loop `while (count > 0) { remove_first; destroy }`:
the trace of destroy calls it makes, in order. -/
def destroy_all_loop {α : Type} : List α → List α
  | [] => []
  | x :: rest => x :: destroy_all_loop rest

theorem destroy_all_loop_eq {α : Type} (l : List α) : destroy_all_loop l = l := by
  induction l with
  | nil => rfl
  | cons x rest ih => rw [destroy_all_loop, ih]

/-- `configuration_manager_t.destroy`, restricted to the init_config
ownership list: the init_config objects whose `destroy` is called, in
call order. -/
def destroy_init_config_calls (this : ManagerState) : List InitConfig :=
  destroy_all_loop this.init_configs

/-- `configuration_manager_t.destroy`, restricted to the sa_config
ownership list: the sa_config objects whose `destroy` is called, in
call order. -/
def destroy_sa_config_calls (this : ManagerState) : List SaConfig :=
  destroy_all_loop this.sa_configs

/-- The ownership invariant maintained by registration: the owned
init_config / sa_config lists are duplicate-free and contain the policy
objects referenced by every configuration entry. -/
def ownership_invariant (st : ManagerState) : Prop :=
  st.init_configs.Nodup ∧
  st.sa_configs.Nodup ∧
  (∀ e ∈ st.configurations, e.init_config ∈ st.init_configs) ∧
  (∀ e ∈ st.configurations, e.sa_config ∈ st.sa_configs)

theorem add_new_configuration_preserves_invariant (st : ManagerState)
    (name : String) (init_config : InitConfig) (sa_config : SaConfig)
    (h : ownership_invariant st) :
    ownership_invariant (add_new_configuration st name init_config sa_config) := by
  obtain ⟨hni, hns, hmi, hms⟩ := h
  rw [ownership_invariant, add_new_configuration]
  refine ⟨?_, ?_, ?_, ?_⟩
  · by_cases hc : list_contains_ptr st.init_configs init_config = true
    · simpa [hc] using hni
    · have : init_config ∉ st.init_configs := by
        rw [← list_contains_ptr_iff]
        simpa using hc
      simp only [hc]
      simpa [List.nodup_cons, this] using hni
  · by_cases hc : list_contains_ptr st.sa_configs sa_config = true
    · simpa [hc] using hns
    · have : sa_config ∉ st.sa_configs := by
        rw [← list_contains_ptr_iff]
        simpa using hc
      simp only [hc]
      simpa [List.nodup_cons, this] using hns
  · intro e he
    simp only [List.mem_append, List.mem_singleton] at he
    rcases he with he | he
    · have := hmi e he
      by_cases hc : list_contains_ptr st.init_configs init_config = true <;>
        simp [hc, this]
    · subst he
      by_cases hc : list_contains_ptr st.init_configs init_config = true
      · have := (list_contains_ptr_iff st.init_configs init_config).mp hc
        simp [hc, this]
      · simp [hc]
  · intro e he
    simp only [List.mem_append, List.mem_singleton] at he
    rcases he with he | he
    · have := hms e he
      by_cases hc : list_contains_ptr st.sa_configs sa_config = true <;>
        simp [hc, this]
    · subst he
      by_cases hc : list_contains_ptr st.sa_configs sa_config = true
      · have := (list_contains_ptr_iff st.sa_configs sa_config).mp hc
        simp [hc, this]
      · simp [hc]

theorem register_all_preserves_invariant
    (regs : List (String × InitConfig × SaConfig)) :
    ∀ st : ManagerState, ownership_invariant st →
      ownership_invariant (register_all st regs) := by
  induction regs with
  | nil => intro st h; exact h
  | cons reg rest ih =>
    intro st h
    obtain ⟨name, init_config, sa_config⟩ := reg
    exact ih (add_new_configuration st name init_config sa_config)
      (add_new_configuration_preserves_invariant st name init_config sa_config h)

/-- Claim C4: starting from a state satisfying the ownership invariant,
any sequence of registrations keeps the owned init_config / sa_config
lists duplicate-free, so every policy object referenced by some
configuration entry occurs in its ownership collection exactly once, and
teardown consequently calls that object's destroy exactly once. -/
theorem add_new_configuration_unique_ownership (st : ManagerState)
    (regs : List (String × InitConfig × SaConfig))
    (h : ownership_invariant st) :
    (∀ init_config : InitConfig,
      (∃ e ∈ (register_all st regs).configurations, e.init_config = init_config) →
      ((register_all st regs).init_configs.count init_config = 1 ∧
        (destroy_init_config_calls (register_all st regs)).count init_config = 1)) ∧
    (∀ sa_config : SaConfig,
      (∃ e ∈ (register_all st regs).configurations, e.sa_config = sa_config) →
      ((register_all st regs).sa_configs.count sa_config = 1 ∧
        (destroy_sa_config_calls (register_all st regs)).count sa_config = 1)) := by
  obtain ⟨hni, hns, hmi, hms⟩ := register_all_preserves_invariant regs st h
  constructor
  · rintro init_config ⟨e, he, rfl⟩
    have hmem := hmi e he
    have hcount := List.count_eq_one_of_mem hni hmem
    exact ⟨hcount, by rwa [destroy_init_config_calls, destroy_all_loop_eq]⟩
  · rintro sa_config ⟨e, he, rfl⟩
    have hmem := hms e he
    have hcount := List.count_eq_one_of_mem hns hmem
    exact ⟨hcount, by rwa [destroy_sa_config_calls, destroy_all_loop_eq]⟩

/-- The state a freshly created manager has before any configuration is
registered: all collections empty, the three timing parameters as passed
to `configuration_manager_create`. -/
def empty_manager (first_retransmit_timeout max_retransmit_count
    half_open_ike_sa_timeout : Nat) : ManagerState :=
  { configurations := []
    init_configs := []
    sa_configs := []
    preshared_secrets := []
    rsa_private_keys := []
    rsa_public_keys := []
    max_retransmit_count := max_retransmit_count
    first_retransmit_timeout := first_retransmit_timeout
    half_open_ike_sa_timeout := half_open_ike_sa_timeout }

/-- Three registrations sharing a single init_config object (and two of
them a single sa_config object). -/
def demo_regs : List (String × InitConfig × SaConfig) :=
  [("a", example_ic_exact, example_sc_remote_only),
   ("b", example_ic_exact, example_sc_full),
   ("c", example_ic_exact, example_sc_full)]

theorem ownership_invariant_empty : ownership_invariant (empty_manager 2 3 15000) :=
  ⟨List.nodup_nil, List.nodup_nil,
    fun _ he => absurd he (List.not_mem_nil _),
    fun _ he => absurd he (List.not_mem_nil _)⟩

/-- Claim C4 witness: from an empty manager, registering three entries
that all share one init_config object leaves that object exactly once in
its ownership collection and exactly once in the destroy trace. -/
theorem add_new_configuration_unique_ownership_witness :
    (register_all (empty_manager 2 3 15000) demo_regs).init_configs.count
        example_ic_exact = 1 ∧
      (destroy_init_config_calls
          (register_all (empty_manager 2 3 15000) demo_regs)).count
        example_ic_exact = 1 :=
  (add_new_configuration_unique_ownership (empty_manager 2 3 15000) demo_regs
      ownership_invariant_empty).1
    example_ic_exact
    ⟨{ name := "a", init_config := example_ic_exact
       sa_config := example_sc_remote_only }, by decide, rfl⟩

/-- C `strlen` on a byte buffer: the number of bytes before the first
zero byte. -/
def strlen : List Nat → Nat
  | [] => 0
  | b :: rest => if b = 0 then 0 else strlen rest + 1

/-- `private_configuration_manager_t.add_new_preshared_secret`:
`identification_create_from_string(type, id_string)` builds the
identification; the stored chunk length is `strlen(preshared_secret)+1`
and `memcpy` copies that many bytes from the buffer, so the zero
terminator is part of the stored chunk; the entry is `insert_last`ed. -/
def add_new_preshared_secret (this : ManagerState) (type : Nat)
    (id_string : String) (preshared_secret : List Nat) : ManagerState :=
  let len := strlen preshared_secret + 1
  let entry : PresharedSecretEntry :=
    { identification := { kind := type, value := id_string }
      preshared_secret := preshared_secret.take len }
  { this with preshared_secrets := this.preshared_secrets ++ [entry] }

/-- `private_configuration_manager_t.add_new_rsa_public_key`: the key
chunk (`key_pos`/`key_len`) is stored under the identification built
from `type`/`id_string`; the entry is `insert_last`ed. -/
def add_new_rsa_public_key (this : ManagerState) (type : Nat)
    (id_string : String) (key : List Nat) : ManagerState :=
  { this with
    rsa_public_keys :=
      this.rsa_public_keys ++
        [{ identification := { kind := type, value := id_string }
           public_key := key }] }

/-- `private_configuration_manager_t.add_new_rsa_private_key`. -/
def add_new_rsa_private_key (this : ManagerState) (type : Nat)
    (id_string : String) (key : List Nat) : ManagerState :=
  { this with
    rsa_private_keys :=
      this.rsa_private_keys ++
        [{ identification := { kind := type, value := id_string }
           private_key := key }] }

/-- The iterator loop of `get_shared_secret`: first entry whose
identification structurally equals the query wins. -/
def get_shared_secret_loop (identification : Identification) :
    List PresharedSecretEntry → Option (List Nat)
  | [] => none
  | entry :: rest =>
    if entry.identification.equals identification then
      some entry.preshared_secret
    else
      get_shared_secret_loop identification rest

/-- `configuration_manager_t.get_shared_secret`. -/
def get_shared_secret (this : ManagerState) (identification : Identification) :
    Option (List Nat) :=
  get_shared_secret_loop identification this.preshared_secrets

/-- The iterator loop of `get_rsa_public_key`. -/
def get_rsa_public_key_loop (identification : Identification) :
    List RsaPublicKeyEntry → Option (List Nat)
  | [] => none
  | entry :: rest =>
    if entry.identification.equals identification then
      some entry.public_key
    else
      get_rsa_public_key_loop identification rest

/-- `configuration_manager_t.get_rsa_public_key`. -/
def get_rsa_public_key (this : ManagerState) (identification : Identification) :
    Option (List Nat) :=
  get_rsa_public_key_loop identification this.rsa_public_keys

/-- The iterator loop of `get_rsa_private_key`. -/
def get_rsa_private_key_loop (identification : Identification) :
    List RsaPrivateKeyEntry → Option (List Nat)
  | [] => none
  | entry :: rest =>
    if entry.identification.equals identification then
      some entry.private_key
    else
      get_rsa_private_key_loop identification rest

/-- `configuration_manager_t.get_rsa_private_key`. -/
def get_rsa_private_key (this : ManagerState) (identification : Identification) :
    Option (List Nat) :=
  get_rsa_private_key_loop identification this.rsa_private_keys

theorem get_shared_secret_loop_eq_find (identification : Identification)
    (l : List PresharedSecretEntry) :
    get_shared_secret_loop identification l =
      (l.find? (fun e => e.identification.equals identification)).map
        (fun e => e.preshared_secret) := by
  induction l with
  | nil => rfl
  | cons e rest ih =>
    rw [get_shared_secret_loop, List.find?]
    cases h : e.identification.equals identification <;> simp [h, ih]

theorem get_shared_secret_loop_append_of_none (identification : Identification)
    (l2 : List PresharedSecretEntry) (l1 : List PresharedSecretEntry) :
    (∀ e ∈ l1, e.identification.equals identification = false) →
    get_shared_secret_loop identification (l1 ++ l2) =
      get_shared_secret_loop identification l2 := by
  induction l1 with
  | nil => intro _; rfl
  | cons e rest ih =>
    intro h
    rw [List.cons_append, get_shared_secret_loop]
    have he := h e (List.mem_cons_self e rest)
    simp [he, ih (fun x hx => h x (List.mem_cons_of_mem e hx))]

/-- Claim C6: the preshared-secret store allows duplicate identities and
preserves insertion order — after two `add_new_preshared_secret` calls
with the same identity both entries exist (the store grew by two) and
`get_shared_secret` returns the stored chunk of the first-inserted
entry; generally, lookup returns the stored chunk of the first
structurally matching entry, unchanged, and `none` (NOT_FOUND) when no
stored entry matches. -/
theorem preshared_secret_store_spec :
    (∀ (st : ManagerState) (type : Nat) (id_string : String) (s1 s2 : List Nat),
      (∀ e ∈ st.preshared_secrets,
        e.identification.equals { kind := type, value := id_string } = false) →
      ((add_new_preshared_secret
            (add_new_preshared_secret st type id_string s1) type id_string
            s2).preshared_secrets.length =
          st.preshared_secrets.length + 2 ∧
        get_shared_secret
            (add_new_preshared_secret
              (add_new_preshared_secret st type id_string s1) type id_string s2)
            { kind := type, value := id_string } =
          some (s1.take (strlen s1 + 1)))) ∧
    (∀ (st : ManagerState) (identification : Identification),
      get_shared_secret st identification =
        (st.preshared_secrets.find?
            (fun e => e.identification.equals identification)).map
          (fun e => e.preshared_secret)) ∧
    (∀ (st : ManagerState) (identification : Identification),
      (∀ e ∈ st.preshared_secrets,
        e.identification.equals identification = false) →
      get_shared_secret st identification = none) := by
  refine ⟨?_, ?_, ?_⟩
  · intro st type id_string s1 s2 h
    constructor
    · simp [add_new_preshared_secret]
    · rw [get_shared_secret]
      simp only [add_new_preshared_secret, List.append_assoc]
      rw [get_shared_secret_loop_append_of_none _ _ _ h]
      simp [get_shared_secret_loop, Identification.equals]
  · intro st identification
    exact get_shared_secret_loop_eq_find identification st.preshared_secrets
  · intro st identification h
    rw [get_shared_secret, get_shared_secret_loop_eq_find]
    have hfind :
        st.preshared_secrets.find?
            (fun e => e.identification.equals identification) = none := by
      rw [List.find?_eq_none]
      intro e he
      simp [h e he]
    rw [hfind]
    rfl

/-- Claim C6 witness: storing "hi\0" then "b\0" under the same identity
in a fresh manager keeps both entries, and lookup returns the first
stored chunk. -/
theorem preshared_secret_store_spec_witness :
    (add_new_preshared_secret
        (add_new_preshared_secret (empty_manager 2 3 15000) 1 "peer"
          [104, 105, 0]) 1 "peer" [98, 0]).preshared_secrets.length =
      (empty_manager 2 3 15000).preshared_secrets.length + 2 ∧
    get_shared_secret
        (add_new_preshared_secret
          (add_new_preshared_secret (empty_manager 2 3 15000) 1 "peer"
            [104, 105, 0]) 1 "peer" [98, 0])
        { kind := 1, value := "peer" } =
      some (List.take (strlen [104, 105, 0] + 1) [104, 105, 0]) :=
  preshared_secret_store_spec.1 (empty_manager 2 3 15000) 1 "peer"
    [104, 105, 0] [98, 0] (fun e he => absurd he (List.not_mem_nil e))

theorem strlen_append_zero (content rest : List Nat) :
    0 ∉ content → strlen (content ++ 0 :: rest) = content.length := by
  induction content with
  | nil => intro _; simp [strlen]
  | cons b bs ih =>
    intro h
    have hb : ¬(b = 0) := by
      intro hb
      exact h (by simp [hb])
    rw [List.cons_append, strlen]
    simp [hb, ih (fun hx => h (List.mem_cons_of_mem b hx))]

theorem take_strlen_append_zero (content rest : List Nat) :
    (content ++ 0 :: rest).take (content.length + 1) = content ++ [0] := by
  induction content with
  | nil => simp
  | cons b bs ih => simp [ih]

/-- Claim C9: for a NUL-terminated input buffer (content bytes, then a
zero byte, then whatever follows in memory), `add_new_preshared_secret`
appends an entry whose stored chunk is the content plus the zero
terminator: its length is `strlen + 1` and its final byte is 0 — the
trailing NUL is included in the stored secret, although the entry
type's own documentation states the NULL termination is not included. -/
theorem add_new_preshared_secret_stores_terminator (st : ManagerState)
    (type : Nat) (id_string : String) (content rest : List Nat)
    (h : 0 ∉ content) :
    (add_new_preshared_secret st type id_string
        (content ++ 0 :: rest)).preshared_secrets =
      st.preshared_secrets ++
        [{ identification := { kind := type, value := id_string }
           preshared_secret := content ++ [0] }] ∧
    (content ++ [0]).length = strlen (content ++ 0 :: rest) + 1 ∧
    (content ++ [0]).getLast? = some 0 := by
  refine ⟨?_, ?_, ?_⟩
  · simp [add_new_preshared_secret, strlen_append_zero content rest h,
      take_strlen_append_zero content rest]
  · simp [strlen_append_zero content rest h]
  · simp

/-- Claim C9 witness: storing the buffer "sec\0" appends the chunk
[115, 101, 99, 0] — four bytes, final byte zero. -/
theorem add_new_preshared_secret_stores_terminator_witness :
    (add_new_preshared_secret (empty_manager 2 3 15000) 1 "peer"
        ([115, 101, 99] ++ 0 :: [])).preshared_secrets =
      (empty_manager 2 3 15000).preshared_secrets ++
        [{ identification := { kind := 1, value := "peer" }
           preshared_secret := [115, 101, 99] ++ [0] }] ∧
    ([115, 101, 99] ++ [0]).length = strlen ([115, 101, 99] ++ 0 :: []) + 1 ∧
    ([115, 101, 99] ++ [0]).getLast? = some 0 :=
  add_new_preshared_secret_stores_terminator (empty_manager 2 3 15000) 1 "peer"
    [115, 101, 99] [] (by decide)

/-- One `new_timeout *= 2` per loop iteration of
`get_retransmit_timeout`; the multiplication acts on a 32-bit machine
word, so each step wraps modulo 2^32. -/
def retransmit_doubling (timeout : Nat) : Nat → Nat
  | 0 => timeout
  | n + 1 => retransmit_doubling (timeout * 2 % 2 ^ 32) n

/-- `configuration_manager_t.get_retransmit_timeout`: `FAILED` (modelled
as `none`) iff the configured maximum is non-zero and the retransmit
count exceeds it; otherwise the first retransmit timeout doubled
`retransmit_count` times in 32-bit arithmetic. -/
def get_retransmit_timeout (this : ManagerState) (retransmit_count : Nat) :
    Option Nat :=
  if retransmit_count > this.max_retransmit_count ∧
      this.max_retransmit_count ≠ 0 then
    none
  else
    some (retransmit_doubling (this.first_retransmit_timeout % 2 ^ 32)
      retransmit_count)

/-- `configuration_manager_t.get_half_open_ike_sa_timeout`. -/
def get_half_open_ike_sa_timeout (this : ManagerState) : Nat :=
  this.half_open_ike_sa_timeout

theorem retransmit_doubling_eq (n : Nat) :
    ∀ timeout : Nat, timeout < 2 ^ 32 →
      retransmit_doubling timeout n = timeout * 2 ^ n % 2 ^ 32 := by
  induction n with
  | zero =>
    intro t ht
    rw [retransmit_doubling, pow_zero, Nat.mul_one]
    exact (Nat.mod_eq_of_lt ht).symm
  | succ n ih =>
    intro t ht
    rw [retransmit_doubling, ih (t * 2 % 2 ^ 32) (Nat.mod_lt _ (by norm_num)),
      Nat.mod_mul_mod]
    congr 1
    ring

/-- Claim C5: `get_retransmit_timeout` signals `FAILED` (Exceeded) iff
the configured maximum retransmit count is non-zero and the attempt
count strictly exceeds it; otherwise it returns
`first_retransmit_timeout * 2 ^ attempt_count` in unsigned 32-bit
arithmetic, and attempt count 0 returns exactly the configured base
timeout. -/
theorem get_retransmit_timeout_spec (st : ManagerState)
    (retransmit_count : Nat)
    (hbase : st.first_retransmit_timeout < 2 ^ 32) :
    (get_retransmit_timeout st retransmit_count = none ↔
      (st.max_retransmit_count ≠ 0 ∧
        st.max_retransmit_count < retransmit_count)) ∧
    ((st.max_retransmit_count = 0 ∨
        retransmit_count ≤ st.max_retransmit_count) →
      get_retransmit_timeout st retransmit_count =
        some (st.first_retransmit_timeout * 2 ^ retransmit_count % 2 ^ 32)) ∧
    get_retransmit_timeout st 0 = some st.first_retransmit_timeout := by
  have hmod : st.first_retransmit_timeout % 2 ^ 32 = st.first_retransmit_timeout :=
    Nat.mod_eq_of_lt hbase
  refine ⟨?_, ?_, ?_⟩
  · constructor
    · intro hnone
      rw [get_retransmit_timeout] at hnone
      by_cases hc : retransmit_count > st.max_retransmit_count ∧
          st.max_retransmit_count ≠ 0
      · exact ⟨hc.2, hc.1⟩
      · simp [hc] at hnone
    · rintro ⟨h1, h2⟩
      rw [get_retransmit_timeout, if_pos ⟨h2, h1⟩]
  · intro h
    have hc : ¬(retransmit_count > st.max_retransmit_count ∧
        st.max_retransmit_count ≠ 0) := by
      rcases h with h | h
      · exact fun hx => hx.2 h
      · exact fun hx => absurd h (Nat.not_le_of_lt hx.1)
    rw [get_retransmit_timeout, if_neg hc, hmod,
      retransmit_doubling_eq retransmit_count st.first_retransmit_timeout hbase]
  · have hc : ¬(0 > st.max_retransmit_count ∧ st.max_retransmit_count ≠ 0) :=
      fun hx => Nat.not_lt_zero _ hx.1
    rw [get_retransmit_timeout, if_neg hc]
    exact congrArg some hmod

/-- Claim C5 witness: with base timeout 2 and maximum count 3, attempt 4
is Exceeded, attempt 3 within budget yields 2 * 2 ^ 3, and attempt 0
yields the base timeout. -/
theorem get_retransmit_timeout_spec_witness :
    ((get_retransmit_timeout example_host_state 4 = none ↔
        (example_host_state.max_retransmit_count ≠ 0 ∧
          example_host_state.max_retransmit_count < 4)) ∧
      ((example_host_state.max_retransmit_count = 0 ∨
          4 ≤ example_host_state.max_retransmit_count) →
        get_retransmit_timeout example_host_state 4 =
          some (example_host_state.first_retransmit_timeout * 2 ^ 4 % 2 ^ 32)) ∧
      get_retransmit_timeout example_host_state 0 =
        some example_host_state.first_retransmit_timeout) ∧
    get_retransmit_timeout example_host_state 4 = none :=
  ⟨get_retransmit_timeout_spec example_host_state 4 (by decide), by decide⟩

/-- Claim C10: in `get_init_config_for_host`, the exact-remote and
wildcard-remote branches are mutually exclusive per entry: an entry
whose configured remote host ip-equals the observed remote host but
whose configured local host is neither default-route nor ip-equal to the
observed local host is rejected and scanning continues with the next
entry — the wildcard-remote branch is an `else if` and is never reached
for such an entry, so the rejection holds even when that remote host is
also marked default-route. -/
theorem exact_remote_branch_excludes_wildcard (entry : ConfigurationEntry)
    (rest : List ConfigurationEntry) (my_host other_host : Host)
    (hR : entry.init_config.other_host.ip_is_equal other_host = true)
    (hD : entry.init_config.my_host.is_default_route = false)
    (hL : entry.init_config.my_host.ip_is_equal my_host = false) :
    get_init_config_for_host_loop my_host other_host (entry :: rest) =
      get_init_config_for_host_loop my_host other_host rest := by
  rw [get_init_config_for_host_loop]
  simp [hR, hD, hL]

/-- An entry whose configured remote host ip-equals 1.2.3.0 and is also
marked default-route, while its local host 5.5.5.5 is neither
default-route nor the observed local host. -/
def example_entry_remote_also_wild : ConfigurationEntry :=
  { name := "both"
    init_config :=
      { oid := 7
        my_host := { address := "5.5.5.5", port := 500, default_route := false }
        other_host := { address := "1.2.3.0", port := 500, default_route := true } }
    sa_config := example_sc }

/-- Claim C10 witness: the entry above — remote ip-equal to the query
and marked default-route, local matching nothing — is skipped, and the
scan of the one-entry list ends in `none`. -/
theorem exact_remote_branch_excludes_wildcard_witness :
    get_init_config_for_host_loop host_9999 host_1230
        [example_entry_remote_also_wild] =
      get_init_config_for_host_loop host_9999 host_1230 [] :=
  exact_remote_branch_excludes_wildcard example_entry_remote_also_wild []
    host_9999 host_1230 (by decide) (by decide) (by decide)

/-!
State-passing forms of the lookup operations.  Each C lookup receives
the manager through its `this` pointer and could in principle assign to
its fields; none of them does — they only read the collections (the
iterators they create and destroy are local objects).  The `_call`
definitions below return the lookup result together with the manager
state the call leaves behind.
-/

/-- The call `get_init_config_for_host(this, ...)`: result plus
post-state. -/
def get_init_config_for_host_call (this : ManagerState)
    (my_host other_host : Host) : Option InitConfig × ManagerState :=
  (get_init_config_for_host this my_host other_host, this)

/-- The call `get_init_config_for_name(this, ...)`. -/
def get_init_config_for_name_call (this : ManagerState) (name : String) :
    Option InitConfig × ManagerState :=
  (get_init_config_for_name this name, this)

/-- The call `get_sa_config_for_name(this, ...)`. -/
def get_sa_config_for_name_call (this : ManagerState) (name : String) :
    Option SaConfig × ManagerState :=
  (get_sa_config_for_name this name, this)

/-- The call `get_sa_config_for_init_config_and_id(this, ...)`. -/
def get_sa_config_for_init_config_and_id_call (this : ManagerState)
    (init_config : InitConfig) (other_id : Identification)
    (my_id : Option Identification) : Option SaConfig × ManagerState :=
  (get_sa_config_for_init_config_and_id this init_config other_id my_id, this)

/-- The call `get_shared_secret(this, ...)`. -/
def get_shared_secret_call (this : ManagerState)
    (identification : Identification) : Option (List Nat) × ManagerState :=
  (get_shared_secret this identification, this)

/-- The call `get_rsa_public_key(this, ...)`. -/
def get_rsa_public_key_call (this : ManagerState)
    (identification : Identification) : Option (List Nat) × ManagerState :=
  (get_rsa_public_key this identification, this)

/-- The call `get_rsa_private_key(this, ...)`. -/
def get_rsa_private_key_call (this : ManagerState)
    (identification : Identification) : Option (List Nat) × ManagerState :=
  (get_rsa_private_key this identification, this)

/-- The call `get_retransmit_timeout(this, ...)`. -/
def get_retransmit_timeout_call (this : ManagerState)
    (retransmit_count : Nat) : Option Nat × ManagerState :=
  (get_retransmit_timeout this retransmit_count, this)

/-- The call `get_half_open_ike_sa_timeout(this)`. -/
def get_half_open_ike_sa_timeout_call (this : ManagerState) :
    Nat × ManagerState :=
  (get_half_open_ike_sa_timeout this, this)

/-- Claim C8: every lookup operation leaves the manager's state
unchanged — for every state and every input, the state after the call
is the state before it, so all stored collections and configured timing
fields are identical before and after. -/
theorem lookups_leave_state_unchanged :
    (∀ (st : ManagerState) (my_host other_host : Host),
      (get_init_config_for_host_call st my_host other_host).2 = st) ∧
    (∀ (st : ManagerState) (name : String),
      (get_init_config_for_name_call st name).2 = st) ∧
    (∀ (st : ManagerState) (name : String),
      (get_sa_config_for_name_call st name).2 = st) ∧
    (∀ (st : ManagerState) (init_config : InitConfig)
        (other_id : Identification) (my_id : Option Identification),
      (get_sa_config_for_init_config_and_id_call st init_config other_id
          my_id).2 = st) ∧
    (∀ (st : ManagerState) (identification : Identification),
      (get_shared_secret_call st identification).2 = st) ∧
    (∀ (st : ManagerState) (identification : Identification),
      (get_rsa_public_key_call st identification).2 = st) ∧
    (∀ (st : ManagerState) (identification : Identification),
      (get_rsa_private_key_call st identification).2 = st) ∧
    (∀ (st : ManagerState) (retransmit_count : Nat),
      (get_retransmit_timeout_call st retransmit_count).2 = st) ∧
    (∀ st : ManagerState, (get_half_open_ike_sa_timeout_call st).2 = st) :=
  ⟨fun _ _ _ => rfl, fun _ _ => rfl, fun _ _ => rfl, fun _ _ _ _ => rfl,
    fun _ _ => rfl, fun _ _ => rfl, fun _ _ => rfl, fun _ _ => rfl,
    fun _ => rfl⟩

end ConfigurationManager
